import Mathlib

/-!
Shallow embedding of the cost-estimation core of
`travel_planner_usingGradio.py`: the multi-source cost aggregator
(`get_comprehensive_cost_analysis`), the static fallback resolver
(`estimate_daily_costs`), the static transport adapter
(`get_transport_costs_api`), the budget composer (the allocation block of
`plan_trip` and `calculate_budget_breakdown`), and the trip-window
validation of `plan_trip`.

Modelling conventions: Python floats are modelled as exact rationals;
`round(x, 2)` is modelled as round-half-even to two decimal places;
network adapters return values that are inputs (as `Option`) to the
aggregation core, since the aggregation logic itself is pure given the
adapter results; dates are modelled as integer day numbers.
-/

/-- Lowercasing of a character list, modelling Python `str.lower` on the
ASCII city names that occur in the static tables. -/
def lowerChars (l : List Char) : List Char := l.map Char.toLower

/-- Whitespace trimming on both ends of a character list, modelling Python
`str.strip()`. -/
def trimChars (l : List Char) : List Char :=
  ((l.dropWhile Char.isWhitespace).reverse.dropWhile Char.isWhitespace).reverse

/-- Normalised city key, modelling `city.lower().strip()` from
`estimate_daily_costs` (line 759) and `get_transport_costs_api` (line 1028). -/
def cityKey (city : String) : List Char := trimChars (lowerChars city.data)

/-- Round-half-even of a rational to an integer, the tie-breaking rule of
Python `round`. -/
def roundHalfEven (q : ℚ) : ℤ :=
  let f := ⌊q⌋
  let r := q - f
  if r < 1 / 2 then f
  else if 1 / 2 < r then f + 1
  else if f % 2 = 0 then f else f + 1

/-- Model of Python `round(x, 2)` on exact rationals. -/
def round2 (q : ℚ) : ℚ := (roundHalfEven (100 * q) : ℚ) / 100

/-- Static per-city accommodation and food baselines in USD per person per
day, the `base_estimates` table of `estimate_daily_costs` (lines 741-757). -/
def base_estimates : List (List Char × ℚ × ℚ) :=
  [("dubai".data, 120, 40), ("london".data, 150, 50), ("new york".data, 180, 60),
   ("paris".data, 140, 45), ("tokyo".data, 130, 35), ("singapore".data, 140, 40),
   ("bangkok".data, 60, 20), ("bali".data, 80, 25), ("mumbai".data, 70, 15),
   ("delhi".data, 65, 15), ("bangalore".data, 75, 18), ("chennai".data, 60, 15),
   ("kolkata".data, 55, 12), ("hyderabad".data, 65, 16), ("pune".data, 60, 15)]

/-- Lookup of the normalised city in the static baseline table, modelling
`if city_lower in base_estimates` (lines 762-766); `none` means the city is
not listed and the generic default (100, 30) applies. -/
def lookupBase (city : String) : Option (ℚ × ℚ) :=
  (base_estimates.find? (fun e => e.1 == cityKey city)).map (·.2)

/-- Budget-anchored adjustment factor of the fallback resolver, modelling
lines 772-785 of `estimate_daily_costs`: `some f` when one of the two
scaling branches fires, `none` when costs are left unadjusted. -/
def adjustment_factor (budget_per_day total_daily : ℚ) : Option ℚ :=
  if budget_per_day > total_daily * 1.5 then
    some (min (budget_per_day / total_daily) 2.0)
  else if budget_per_day < total_daily * 0.7 then
    some (max (budget_per_day / total_daily) 0.5)
  else none

/-- Result record of `estimate_daily_costs` (lines 787-792). -/
structure DailyCosts where
  daily_accommodation : ℚ
  daily_food : ℚ
  total_daily : ℚ
  city_known : Bool
deriving DecidableEq, Repr

/-- Main branch of `estimate_daily_costs` (lines 741-792): static table
lookup, per-person scaling, and budget-anchored adjustment. -/
def estimate_daily_costs_main (city : String) (trip_budget : ℚ)
    (num_days num_people : ℕ) : DailyCosts :=
  let est := (lookupBase city).getD (100, 30)
  let daily_accommodation := est.1 * num_people
  let daily_food := est.2 * num_people
  let total_daily := daily_accommodation + daily_food
  let budget_per_day := trip_budget / num_days
  let f := (adjustment_factor budget_per_day total_daily).getD 1
  { daily_accommodation := round2 (daily_accommodation * f)
    daily_food := round2 (daily_food * f)
    total_daily := round2 (daily_accommodation * f + daily_food * f)
    city_known := (lookupBase city).isSome }

/-- Handler branch of `estimate_daily_costs` (lines 794-801): hard-coded
generic per-person estimates. -/
def estimate_daily_costs_error (num_people : ℕ) : DailyCosts :=
  { daily_accommodation := round2 (100 * num_people)
    daily_food := round2 (30 * num_people)
    total_daily := round2 (130 * num_people)
    city_known := false }

/-- Static fallback resolver `estimate_daily_costs` (lines 722-801). The
`num_days = 0` case models the `except` handler (lines 794-801), which in
Python is reached through the `ZeroDivisionError` of
`trip_budget / num_days`; for `num_days ≥ 1` the body never raises. -/
def estimate_daily_costs (city : String) (trip_budget : ℚ)
    (num_days num_people : ℕ) : DailyCosts :=
  if num_days = 0 then estimate_daily_costs_error num_people
  else estimate_daily_costs_main city trip_budget num_days num_people

/-- Typed result of the live hotel-price adapter `get_hotel_prices_api`
(lines 910-965); only the `average_price` field is read by the aggregator. -/
structure HotelPrices where
  average_price : ℚ
deriving DecidableEq, Repr

/-- Typed result of the LLM cost-research adapter `get_real_time_costs_llm`
(lines 827-877); only these three fields are read by the aggregator. -/
structure LLMEstimates where
  accommodation_per_night : ℚ
  food_per_day : ℚ
  transport_per_day : ℚ
deriving DecidableEq, Repr

/-- Typed result of the restaurant price-level adapter `get_food_costs_api`
(lines 967-1003); only `daily_food_cost` is read by the aggregator. -/
structure FoodCosts where
  daily_food_cost : ℚ
deriving DecidableEq, Repr

/-- Typed result of the static transport adapter `get_transport_costs_api`
(lines 1005-1041); only `daily_transport_cost` is read by the aggregator. -/
structure TransportCosts where
  daily_transport_cost : ℚ
deriving DecidableEq, Repr

/-- Static per-city daily transport cost table of `get_transport_costs_api`
(lines 1021-1026), in USD per day. -/
def transport_estimates : List (List Char × ℚ) :=
  [("dubai".data, 25), ("london".data, 15), ("new york".data, 12), ("paris".data, 8),
   ("tokyo".data, 10), ("singapore".data, 8), ("bangkok".data, 5), ("bali".data, 8),
   ("mumbai".data, 3), ("delhi".data, 3), ("bangalore".data, 4), ("chennai".data, 3),
   ("kolkata".data, 3), ("hyderabad".data, 4), ("pune".data, 3)]

/-- Daily transport cost selected by `get_transport_costs_api`: the static
table value when the normalised city is listed, else the built-in default 8
(lines 1028-1038). -/
def lookupTransport (city : String) : ℚ :=
  ((transport_estimates.find? (fun e => e.1 == cityKey city)).map (·.2)).getD 8

/-- Static transport adapter `get_transport_costs_api` (lines 1005-1041). Its
Python signature says "or None on error", but for every city string the body
is a total dictionary lookup with a default, so it always returns a value. -/
def get_transport_costs_api (city : String) : Option TransportCosts :=
  some { daily_transport_cost := lookupTransport city }

/-- Accommodation selection of the aggregator (lines 1531-1537): live hotel
prices first, else the LLM research estimate, else `100 * num_people`. -/
def accommodation_raw (hotel_prices : Option HotelPrices)
    (llm_estimates : Option LLMEstimates) (num_people : ℕ) : ℚ :=
  match hotel_prices with
  | some h => h.average_price
  | none =>
    match llm_estimates with
    | some l => l.accommodation_per_night
    | none => 100 * num_people

/-- Food selection of the aggregator (lines 1539-1545): restaurant
price-level API first, else the LLM research estimate, else `30`, each
multiplied by `num_people`. -/
def food_raw (food_costs : Option FoodCosts)
    (llm_estimates : Option LLMEstimates) (num_people : ℕ) : ℚ :=
  match food_costs with
  | some fc => fc.daily_food_cost * num_people
  | none =>
    match llm_estimates with
    | some l => l.food_per_day * num_people
    | none => 30 * num_people

/-- Transport selection of the aggregator (lines 1547-1553): static transport
adapter result first, else the LLM research estimate, else `8`, each
multiplied by `num_people`. -/
def transport_raw (transport_costs : Option TransportCosts)
    (llm_estimates : Option LLMEstimates) (num_people : ℕ) : ℚ :=
  match transport_costs with
  | some t => t.daily_transport_cost * num_people
  | none =>
    match llm_estimates with
    | some l => l.transport_per_day * num_people
    | none => 8 * num_people

/-- Record `results["final_estimates"]` built by the aggregator
(lines 1557-1564), including the `data_sources` tag list. -/
structure FinalEstimates where
  accommodation_per_night : ℚ
  food_per_day : ℚ
  transport_per_day : ℚ
  total_per_day : ℚ
  total_trip_cost : ℚ
  data_sources : List String
deriving DecidableEq, Repr

/-- Aggregation core of `get_comprehensive_cost_analysis` (lines 1527-1572).
The Python function first calls the network adapters; their results are the
`Option`-typed inputs here. `city`, `trip_budget`, `start_date` and
`end_date` are consumed only by those adapter calls, so they are not
parameters of the aggregation core. -/
def get_comprehensive_cost_analysis (hotel_prices : Option HotelPrices)
    (llm_estimates : Option LLMEstimates) (food_costs : Option FoodCosts)
    (transport_costs : Option TransportCosts)
    (num_days num_people : ℕ) : FinalEstimates :=
  let accommodation_cost := accommodation_raw hotel_prices llm_estimates num_people
  let food_cost := food_raw food_costs llm_estimates num_people
  let transport_cost := transport_raw transport_costs llm_estimates num_people
  let total_daily := accommodation_cost + food_cost + transport_cost
  { accommodation_per_night := round2 accommodation_cost
    food_per_day := round2 food_cost
    transport_per_day := round2 transport_cost
    total_per_day := round2 total_daily
    total_trip_cost := round2 (total_daily * num_days)
    data_sources :=
      (if hotel_prices.isSome then ["Real hotel prices"] else []) ++
      (if food_costs.isSome then ["Restaurant price analysis"] else []) ++
      (if llm_estimates.isSome then ["LLM research"] else []) }

/-- Tag appended to `data_sources` by `enhance_cost_analysis_with_duckduckgo`
(lines 1471-1475): one entry, chosen by whether any insight search returned
data. -/
def enhance_data_sources (has_insights : Bool) (data_sources : List String) : List String :=
  data_sources ++
    (if has_insights then ["DuckDuckGo real-time search"] else ["Fallback insights"])

/-- Fixed-percentage budget allocations computed by `plan_trip`
(lines 427-434) and, identically, by `calculate_budget_breakdown`
(lines 2274-2277). -/
structure BudgetAllocations where
  accommodation_budget : ℚ
  food_budget : ℚ
  travel_budget : ℚ
  leisure_budget : ℚ
deriving DecidableEq, Repr

/-- Budget composer: the allocation block shared by `plan_trip` (lines
427-434) and `calculate_budget_breakdown` (lines 2274-2277). -/
def budget_allocations (trip_budget : ℚ) : BudgetAllocations :=
  { accommodation_budget := trip_budget * 0.5
    food_budget := trip_budget * 0.2
    travel_budget := trip_budget * 0.1
    leisure_budget := trip_budget * 0.2 }

/-- Trip-window validation and day count of `plan_trip` (lines 376-381),
with dates as integer day numbers: a request with `end_date < start_date` is
rejected (returning the validation message, modelled as `none`) before the
cost analysis at line 447 can run; otherwise
`num_days = (end_date - start_date) + 1`. -/
def plan_trip_window (start_date end_date : ℤ) : Option ℤ :=
  if end_date < start_date then none else some (end_date - start_date + 1)

/-- First non-empty candidate in a precedence list, the selection discipline
the specification describes for the aggregator. -/
def firstSome {α : Type} : List (Option α) → Option α
  | [] => none
  | some a :: _ => some a
  | none :: rest => firstSome rest

/-- Round-half-even fixes integers. -/
theorem roundHalfEven_intCast (n : ℤ) : roundHalfEven (n : ℚ) = n := by
  unfold roundHalfEven
  norm_num

/-- Values that are exact to two decimal places are fixed by `round2`. -/
theorem round2_of_den_eq_one {q : ℚ} (h : (100 * q).den = 1) : round2 q = q := by
  have hnum : ((100 * q).num : ℚ) = 100 * q := Rat.coe_int_num_of_den_eq_one h
  unfold round2
  rw [← hnum, roundHalfEven_intCast, hnum]
  ring

/-- Natural numbers are fixed by `round2`. -/
theorem round2_natCast (n : ℕ) : round2 (n : ℚ) = n := by
  have h : (100 * (n : ℚ)).den = 1 := by
    rw [show (100 * (n : ℚ)) = ((100 * n : ℕ) : ℚ) by push_cast; ring]
    exact Rat.den_natCast _
  exact round2_of_den_eq_one h

/-- Products of an integer-valued rational with a natural are fixed by
`round2`; this covers the generic-default shapes such as `100 * num_people`. -/
theorem round2_ofNat_mul (a : ℚ) (p : ℕ) (h : a.den = 1) : round2 (a * p) = a * p := by
  apply round2_of_den_eq_one
  have hnum : (a.num : ℚ) = a := Rat.coe_int_num_of_den_eq_one h
  rw [show (100 : ℚ) * (a * p) = ((100 * a.num * p : ℤ) : ℚ) by push_cast [hnum]; ring]
  exact Rat.den_intCast _

/-- Claim C2: the cost aggregator never fails outright: for num_days ≥ 1 and
num_people ≥ 1, when every live adapter and the LLM source return empty, each
of the three categories resolves to its generic default (100, 30 and 8 times
num_people respectively), a non-negative value; the aggregation core is a
total function, so no unhandled error escapes it. -/
theorem C2_generic_default_guarantee (num_days num_people : ℕ)
    (_hd : 1 ≤ num_days) (_hp : 1 ≤ num_people) :
    (get_comprehensive_cost_analysis none none none none num_days
        num_people).accommodation_per_night = 100 * num_people ∧
    (get_comprehensive_cost_analysis none none none none num_days
        num_people).food_per_day = 30 * num_people ∧
    (get_comprehensive_cost_analysis none none none none num_days
        num_people).transport_per_day = 8 * num_people ∧
    0 ≤ (get_comprehensive_cost_analysis none none none none num_days
        num_people).accommodation_per_night ∧
    0 ≤ (get_comprehensive_cost_analysis none none none none num_days
        num_people).food_per_day ∧
    0 ≤ (get_comprehensive_cost_analysis none none none none num_days
        num_people).transport_per_day := by
  have h1 : (get_comprehensive_cost_analysis none none none none num_days
      num_people).accommodation_per_night = 100 * num_people :=
    round2_ofNat_mul 100 num_people rfl
  have h2 : (get_comprehensive_cost_analysis none none none none num_days
      num_people).food_per_day = 30 * num_people :=
    round2_ofNat_mul 30 num_people rfl
  have h3 : (get_comprehensive_cost_analysis none none none none num_days
      num_people).transport_per_day = 8 * num_people :=
    round2_ofNat_mul 8 num_people rfl
  refine ⟨h1, h2, h3, ?_, ?_, ?_⟩
  · rw [h1]; positivity
  · rw [h2]; positivity
  · rw [h3]; positivity

/-- Witness for C2 at num_days = 1, num_people = 1. -/
theorem C2_generic_default_guarantee_witness :
    (get_comprehensive_cost_analysis none none none none 1
        1).accommodation_per_night = 100 * (1 : ℕ) ∧
    (get_comprehensive_cost_analysis none none none none 1
        1).food_per_day = 30 * (1 : ℕ) ∧
    (get_comprehensive_cost_analysis none none none none 1
        1).transport_per_day = 8 * (1 : ℕ) ∧
    0 ≤ (get_comprehensive_cost_analysis none none none none 1
        1).accommodation_per_night ∧
    0 ≤ (get_comprehensive_cost_analysis none none none none 1
        1).food_per_day ∧
    0 ≤ (get_comprehensive_cost_analysis none none none none 1
        1).transport_per_day :=
  C2_generic_default_guarantee 1 1 (by norm_num) (by norm_num)

/-- Claim C7: the budget composer allocates exactly 50% to accommodation,
20% to food, 10% to travel and 20% to leisure, and the four allocations sum
to the total budget exactly, hence within the 0.01 tolerance. -/
theorem C7_budget_allocation_split (trip_budget : ℚ) :
    (budget_allocations trip_budget).accommodation_budget = trip_budget * 0.5 ∧
    (budget_allocations trip_budget).food_budget = trip_budget * 0.2 ∧
    (budget_allocations trip_budget).travel_budget = trip_budget * 0.1 ∧
    (budget_allocations trip_budget).leisure_budget = trip_budget * 0.2 ∧
    (budget_allocations trip_budget).accommodation_budget +
      (budget_allocations trip_budget).food_budget +
      (budget_allocations trip_budget).travel_budget +
      (budget_allocations trip_budget).leisure_budget = trip_budget ∧
    |(budget_allocations trip_budget).accommodation_budget +
      (budget_allocations trip_budget).food_budget +
      (budget_allocations trip_budget).travel_budget +
      (budget_allocations trip_budget).leisure_budget - trip_budget| ≤ 0.01 := by
  have hsum : (budget_allocations trip_budget).accommodation_budget +
      (budget_allocations trip_budget).food_budget +
      (budget_allocations trip_budget).travel_budget +
      (budget_allocations trip_budget).leisure_budget = trip_budget := by
    unfold budget_allocations
    norm_num
    ring
  refine ⟨rfl, rfl, rfl, rfl, hsum, ?_⟩
  rw [hsum]
  norm_num

/-- Claim C9: a request whose end date precedes its start date is rejected by
the validation step (modelled as `none`) that runs before the cost analysis;
an accepted window yields num_days = (end - start) + 1 ≥ 1. -/
theorem C9_trip_window_validation (start_date end_date : ℤ) :
    (plan_trip_window start_date end_date = none ↔ end_date < start_date) ∧
    (∀ n, plan_trip_window start_date end_date = some n →
      n = end_date - start_date + 1 ∧ 1 ≤ n) := by
  unfold plan_trip_window
  by_cases h : end_date < start_date
  · refine ⟨by simp [h], ?_⟩
    intro n hn
    simp [h] at hn
  · refine ⟨by simp [h], ?_⟩
    intro n hn
    simp [h] at hn
    omega

/-- Witness for C9 at start = 0, end = 1, num_days = 2. -/
theorem C9_trip_window_validation_witness :
    (plan_trip_window 0 1 = none ↔ (1 : ℤ) < 0) ∧
    ((2 : ℤ) = 1 - 0 + 1 ∧ 1 ≤ (2 : ℤ)) :=
  ⟨(C9_trip_window_validation 0 1).1,
   (C9_trip_window_validation 0 1).2 2 (by unfold plan_trip_window; norm_num)⟩

/-- Claim C10: the static transport adapter returns a value for every city
string (the table entry for a listed city, the built-in default 8 otherwise),
so the aggregator's transport estimate always comes from it: the LLM-research
and generic-default branches for transport are unreachable whenever the
adapter result is passed in, whatever the LLM source returned. -/
theorem C10_transport_always_static (city : String)
    (llm_estimates : Option LLMEstimates) (num_people : ℕ) :
    (get_transport_costs_api city).isSome = true ∧
    transport_raw (get_transport_costs_api city) llm_estimates num_people =
      lookupTransport city * num_people ∧
    (∀ (hotel_prices : Option HotelPrices) (food_costs : Option FoodCosts)
        (num_days : ℕ),
      (get_comprehensive_cost_analysis hotel_prices llm_estimates food_costs
          (get_transport_costs_api city) num_days num_people).transport_per_day =
        round2 (lookupTransport city * num_people)) :=
  ⟨rfl, rfl, fun _ _ _ => rfl⟩

/-- Claim C1 counterexample: with no hotel, LLM or food data for "Paris" —
a city present in the static per-city table with accommodation baseline 140 —
the aggregator returns the generic default 100, not the table value: the
aggregator has no static-table step between the LLM estimate and the generic
default for accommodation (or food). -/
theorem C1_counterexample :
    lookupBase "Paris" = some (140, 45) ∧
    (get_comprehensive_cost_analysis none none none
        (get_transport_costs_api "Paris") 5 1).accommodation_per_night = 100 ∧
    (get_comprehensive_cost_analysis none none none
        (get_transport_costs_api "Paris") 5 1).accommodation_per_night ≠
      ((lookupBase "Paris").getD (100, 30)).1 := by
  have hl : lookupBase "Paris" = some (140, 45) := by decide
  have h2 : (get_comprehensive_cost_analysis none none none
      (get_transport_costs_api "Paris") 5 1).accommodation_per_night = 100 := by
    have h := round2_ofNat_mul 100 1 rfl
    simp only [get_comprehensive_cost_analysis, accommodation_raw] at h ⊢
    rw [h]
    norm_num
  refine ⟨hl, h2, ?_⟩
  rw [h2, hl]
  norm_num

/-- Claim C1 amended: per-category precedence is first-non-empty-wins over
the candidate lists [live hotel API, LLM estimate] with generic default
`100 * num_people` for accommodation, [restaurant API, LLM estimate] with
default `30 * num_people` for food, and [transport adapter, LLM estimate]
with default `8 * num_people` for transport; no static per-city table step
exists inside the aggregator for accommodation or food. -/
theorem C1_amended_precedence (hotel_prices : Option HotelPrices)
    (llm_estimates : Option LLMEstimates) (food_costs : Option FoodCosts)
    (transport_costs : Option TransportCosts) (num_days num_people : ℕ) :
    (get_comprehensive_cost_analysis hotel_prices llm_estimates food_costs
        transport_costs num_days num_people).accommodation_per_night =
      round2 ((firstSome [hotel_prices.map HotelPrices.average_price,
        llm_estimates.map LLMEstimates.accommodation_per_night]).getD
          (100 * num_people)) ∧
    (get_comprehensive_cost_analysis hotel_prices llm_estimates food_costs
        transport_costs num_days num_people).food_per_day =
      round2 ((firstSome [food_costs.map (fun fc => fc.daily_food_cost * (num_people : ℚ)),
        llm_estimates.map (fun l => l.food_per_day * (num_people : ℚ))]).getD
          (30 * num_people)) ∧
    (get_comprehensive_cost_analysis hotel_prices llm_estimates food_costs
        transport_costs num_days num_people).transport_per_day =
      round2 ((firstSome [transport_costs.map (fun t => t.daily_transport_cost * (num_people : ℚ)),
        llm_estimates.map (fun l => l.transport_per_day * (num_people : ℚ))]).getD
          (8 * num_people)) := by
  cases hotel_prices <;> cases llm_estimates <;> cases food_costs <;>
    cases transport_costs <;>
    simp [get_comprehensive_cost_analysis, accommodation_raw, food_raw,
      transport_raw, firstSome]

/-- Claim C5 counterexample: for city "Paris", budget 1000, 5 days, 2 people
the code does not return accommodation 140, food 45, total 185: the scale
factor max(200/370, 0.5) is 20/37, not 0.5. -/
theorem C5_counterexample :
    ¬((estimate_daily_costs "Paris" 1000 5 2).daily_accommodation = 140 ∧
      (estimate_daily_costs "Paris" 1000 5 2).daily_food = 45 ∧
      (estimate_daily_costs "Paris" 1000 5 2).total_daily = 185) := by
  intro h
  obtain ⟨h1, -, -⟩ := h
  have ha : (estimate_daily_costs "Paris" 1000 5 2).daily_accommodation =
      15135 / 100 := by
    have hl : lookupBase "Paris" = some (140, 45) := by decide
    unfold estimate_daily_costs estimate_daily_costs_main adjustment_factor
    rw [hl]
    norm_num [round2, roundHalfEven]
  rw [ha] at h1
  norm_num at h1

/-- Claim C5 amended: on that input the baseline is accommodation 280 and
food 90 (total 370) with implied daily budget 200; since 200 < 0.7 × 370 the
factor is max(200/370, 0.5) = 20/37, giving accommodation 151.35, food 48.65
and total 200 after two-decimal rounding. -/
theorem C5_amended_scenario :
    adjustment_factor 200 370 = some (20 / 37) ∧
    estimate_daily_costs "Paris" 1000 5 2 =
      { daily_accommodation := 15135 / 100, daily_food := 4865 / 100,
        total_daily := 200, city_known := true } := by
  constructor
  · unfold adjustment_factor
    norm_num
  · have hl : lookupBase "Paris" = some (140, 45) := by decide
    unfold estimate_daily_costs estimate_daily_costs_main adjustment_factor
    rw [hl]
    norm_num [round2, roundHalfEven, DailyCosts.mk.injEq]

/-- Claim C8 counterexample: on the generic-default branch the accommodation
estimate is 100 × num_people — it is scaled by the number of travellers
(200 for two people against 100 for one), contradicting the claim that
accommodation is never scaled by num_people. -/
theorem C8_counterexample :
    (get_comprehensive_cost_analysis none none none none 1
        2).accommodation_per_night = 100 * (2 : ℕ) ∧
    (get_comprehensive_cost_analysis none none none none 1
        1).accommodation_per_night = 100 * (1 : ℕ) ∧
    (get_comprehensive_cost_analysis none none none none 1
        2).accommodation_per_night ≠
      (get_comprehensive_cost_analysis none none none none 1
          1).accommodation_per_night := by
  have h2 := round2_ofNat_mul 100 2 rfl
  have h1 := round2_ofNat_mul 100 1 rfl
  have hne : (100 : ℚ) * (2 : ℕ) ≠ 100 * (1 : ℕ) := by norm_num
  exact ⟨h2, h1, fun hc => hne ((h2.symm.trans hc).trans h1)⟩

/-- Claim C8 amended: the per-person categories food and transport multiply
their per-unit rate by num_people on every branch; accommodation is not
scaled by num_people on the live-hotel and LLM branches, but its
generic-default branch returns 100 × num_people, which is scaled. -/
theorem C8_amended_scaling :
    (∀ (h : HotelPrices) (llm_estimates : Option LLMEstimates) (num_people : ℕ),
      accommodation_raw (some h) llm_estimates num_people = h.average_price) ∧
    (∀ (l : LLMEstimates) (num_people : ℕ),
      accommodation_raw none (some l) num_people = l.accommodation_per_night) ∧
    (∀ num_people : ℕ,
      accommodation_raw none none num_people = 100 * num_people) ∧
    (∀ (food_costs : Option FoodCosts) (llm_estimates : Option LLMEstimates)
        (num_people : ℕ),
      food_raw food_costs llm_estimates num_people =
        num_people * food_raw food_costs llm_estimates 1) ∧
    (∀ (transport_costs : Option TransportCosts)
        (llm_estimates : Option LLMEstimates) (num_people : ℕ),
      transport_raw transport_costs llm_estimates num_people =
        num_people * transport_raw transport_costs llm_estimates 1) := by
  refine ⟨fun _ _ _ => rfl, fun _ _ => rfl, fun _ => rfl, ?_, ?_⟩
  · intro food_costs llm_estimates num_people
    cases food_costs <;> cases llm_estimates <;>
      simp [food_raw] <;> ring
  · intro transport_costs llm_estimates num_people
    cases transport_costs <;> cases llm_estimates <;>
      simp [transport_raw] <;> ring

/-- Claim C4: for positive baseline total, scaling fires exactly when the
implied daily budget exceeds 1.5 times the baseline (upward, by
min(ratio, 2.0)) or falls below 0.7 times the baseline (downward, by
max(ratio, 0.5)); every applied factor lies in [0.5, 2.0]. -/
theorem C4_adjustment_scaling (total_daily budget_per_day : ℚ)
    (hpos : 0 < total_daily) :
    ((adjustment_factor budget_per_day total_daily).isSome ↔
      (budget_per_day > total_daily * 1.5 ∨ budget_per_day < total_daily * 0.7)) ∧
    (budget_per_day > total_daily * 1.5 →
      adjustment_factor budget_per_day total_daily =
        some (min (budget_per_day / total_daily) 2.0)) ∧
    (budget_per_day < total_daily * 0.7 →
      adjustment_factor budget_per_day total_daily =
        some (max (budget_per_day / total_daily) 0.5)) ∧
    (∀ f, adjustment_factor budget_per_day total_daily = some f →
      0.5 ≤ f ∧ f ≤ 2.0) := by
  unfold adjustment_factor
  by_cases h1 : budget_per_day > total_daily * 1.5
  · have hgt : (1.5 : ℚ) < budget_per_day / total_daily := by
      rw [lt_div_iff₀ hpos]
      linarith
    refine ⟨by simp [h1], fun _ => by simp [h1], ?_, ?_⟩
    · intro h2
      exfalso
      nlinarith
    · intro f hf
      simp only [if_pos h1, Option.some.injEq] at hf
      rw [← hf]
      refine ⟨le_min (by linarith) (by norm_num), min_le_right _ _⟩
  · by_cases h2 : budget_per_day < total_daily * 0.7
    · have hlt : budget_per_day / total_daily < 0.7 := by
        rw [div_lt_iff₀ hpos]
        linarith
      refine ⟨by simp [h1, h2], fun hx => absurd hx h1, fun _ => by simp [h1, h2], ?_⟩
      intro f hf
      simp only [if_neg h1, if_pos h2, Option.some.injEq] at hf
      rw [← hf]
      refine ⟨le_max_right _ _, max_le (by linarith) (by norm_num)⟩
    · refine ⟨by simp [h1, h2], fun hx => absurd hx h1, fun hx => absurd hx h2, ?_⟩
      intro f hf
      simp only [if_neg h1, if_neg h2] at hf
      exact absurd hf (Option.noConfusion)

/-- Witness for C4 at baseline 370, implied daily budget 200, where the
applied factor is 20/37. -/
theorem C4_adjustment_scaling_witness :
    (0.5 : ℚ) ≤ 20 / 37 ∧ (20 : ℚ) / 37 ≤ 2.0 :=
  (C4_adjustment_scaling 370 200 (by norm_num)).2.2.2 (20 / 37)
    (by unfold adjustment_factor; norm_num)

/-- Claim C3 counterexample: with an LLM estimate of 1.004 for each
category, the stored per-category fields each round to 1.00 but
total_per_day is round2(3.012) = 3.01, so the totalPerDay field differs from
the sum of the three stored category values. -/
theorem C3_counterexample :
    (get_comprehensive_cost_analysis none (some ⟨1004 / 1000, 1004 / 1000, 1004 / 1000⟩)
        none none 1 1).total_per_day ≠
      (get_comprehensive_cost_analysis none (some ⟨1004 / 1000, 1004 / 1000, 1004 / 1000⟩)
          none none 1 1).accommodation_per_night +
        (get_comprehensive_cost_analysis none (some ⟨1004 / 1000, 1004 / 1000, 1004 / 1000⟩)
            none none 1 1).food_per_day +
        (get_comprehensive_cost_analysis none (some ⟨1004 / 1000, 1004 / 1000, 1004 / 1000⟩)
            none none 1 1).transport_per_day := by
  unfold get_comprehensive_cost_analysis accommodation_raw food_raw transport_raw
  norm_num [round2, roundHalfEven]

/-- Claim C3 amended: on the multi-source path total_per_day is the
two-decimal rounding of the sum of the three unrounded category values, and
it equals the sum of the three stored (rounded) fields whenever each
unrounded value is already exact to two decimals; on the static fallback
path there are only two categories (accommodation and food) and total_daily
is the two-decimal rounding of their unrounded sum. -/
theorem C3_amended_total :
    (∀ (hotel_prices : Option HotelPrices) (llm_estimates : Option LLMEstimates)
        (food_costs : Option FoodCosts) (transport_costs : Option TransportCosts)
        (num_days num_people : ℕ),
      (get_comprehensive_cost_analysis hotel_prices llm_estimates food_costs
          transport_costs num_days num_people).total_per_day =
        round2 (accommodation_raw hotel_prices llm_estimates num_people +
          food_raw food_costs llm_estimates num_people +
          transport_raw transport_costs llm_estimates num_people)) ∧
    (∀ (hotel_prices : Option HotelPrices) (llm_estimates : Option LLMEstimates)
        (food_costs : Option FoodCosts) (transport_costs : Option TransportCosts)
        (num_days num_people : ℕ),
      (100 * accommodation_raw hotel_prices llm_estimates num_people).den = 1 →
      (100 * food_raw food_costs llm_estimates num_people).den = 1 →
      (100 * transport_raw transport_costs llm_estimates num_people).den = 1 →
      (get_comprehensive_cost_analysis hotel_prices llm_estimates food_costs
          transport_costs num_days num_people).total_per_day =
        (get_comprehensive_cost_analysis hotel_prices llm_estimates food_costs
            transport_costs num_days num_people).accommodation_per_night +
          (get_comprehensive_cost_analysis hotel_prices llm_estimates food_costs
              transport_costs num_days num_people).food_per_day +
          (get_comprehensive_cost_analysis hotel_prices llm_estimates food_costs
              transport_costs num_days num_people).transport_per_day) ∧
    (∀ (city : String) (trip_budget : ℚ) (num_days num_people : ℕ),
      ∃ A F : ℚ,
        (estimate_daily_costs city trip_budget num_days num_people).daily_accommodation =
          round2 A ∧
        (estimate_daily_costs city trip_budget num_days num_people).daily_food =
          round2 F ∧
        (estimate_daily_costs city trip_budget num_days num_people).total_daily =
          round2 (A + F)) := by
  refine ⟨fun _ _ _ _ _ _ => rfl, ?_, ?_⟩
  · intro hotel_prices llm_estimates food_costs transport_costs num_days num_people h1 h2 h3
    have n1 := Rat.coe_int_num_of_den_eq_one h1
    have n2 := Rat.coe_int_num_of_den_eq_one h2
    have n3 := Rat.coe_int_num_of_den_eq_one h3
    have hsum : (100 * (accommodation_raw hotel_prices llm_estimates num_people +
        food_raw food_costs llm_estimates num_people +
        transport_raw transport_costs llm_estimates num_people)).den = 1 := by
      rw [show (100 : ℚ) * (accommodation_raw hotel_prices llm_estimates num_people +
          food_raw food_costs llm_estimates num_people +
          transport_raw transport_costs llm_estimates num_people) =
          100 * accommodation_raw hotel_prices llm_estimates num_people +
          100 * food_raw food_costs llm_estimates num_people +
          100 * transport_raw transport_costs llm_estimates num_people by ring]
      rw [← n1, ← n2, ← n3]
      rw [show (((100 * accommodation_raw hotel_prices llm_estimates num_people).num : ℚ) +
          ((100 * food_raw food_costs llm_estimates num_people).num : ℚ) +
          ((100 * transport_raw transport_costs llm_estimates num_people).num : ℚ)) =
          (((100 * accommodation_raw hotel_prices llm_estimates num_people).num +
            (100 * food_raw food_costs llm_estimates num_people).num +
            (100 * transport_raw transport_costs llm_estimates num_people).num : ℤ) : ℚ) by
        push_cast
        ring]
      exact Rat.den_intCast _
    have htot : (get_comprehensive_cost_analysis hotel_prices llm_estimates food_costs
        transport_costs num_days num_people).total_per_day =
        accommodation_raw hotel_prices llm_estimates num_people +
          food_raw food_costs llm_estimates num_people +
          transport_raw transport_costs llm_estimates num_people :=
      round2_of_den_eq_one hsum
    have ha : (get_comprehensive_cost_analysis hotel_prices llm_estimates food_costs
        transport_costs num_days num_people).accommodation_per_night =
        accommodation_raw hotel_prices llm_estimates num_people :=
      round2_of_den_eq_one h1
    have hf : (get_comprehensive_cost_analysis hotel_prices llm_estimates food_costs
        transport_costs num_days num_people).food_per_day =
        food_raw food_costs llm_estimates num_people :=
      round2_of_den_eq_one h2
    have ht : (get_comprehensive_cost_analysis hotel_prices llm_estimates food_costs
        transport_costs num_days num_people).transport_per_day =
        transport_raw transport_costs llm_estimates num_people :=
      round2_of_den_eq_one h3
    rw [htot, ha, hf, ht]
  · intro city trip_budget num_days num_people
    by_cases hd : num_days = 0
    · subst hd
      refine ⟨100 * num_people, 30 * num_people, rfl, rfl, ?_⟩
      show round2 (130 * (num_people : ℚ)) =
        round2 (100 * (num_people : ℚ) + 30 * num_people)
      rw [show (100 * (num_people : ℚ) + 30 * num_people) = 130 * num_people by ring]
    · have he : estimate_daily_costs city trip_budget num_days num_people =
          estimate_daily_costs_main city trip_budget num_days num_people := by
        unfold estimate_daily_costs
        simp [hd]
      rw [he]
      exact ⟨((lookupBase city).getD (100, 30)).1 * num_people *
          ((adjustment_factor (trip_budget / num_days)
            (((lookupBase city).getD (100, 30)).1 * num_people +
              ((lookupBase city).getD (100, 30)).2 * num_people)).getD 1),
        ((lookupBase city).getD (100, 30)).2 * num_people *
          ((adjustment_factor (trip_budget / num_days)
            (((lookupBase city).getD (100, 30)).1 * num_people +
              ((lookupBase city).getD (100, 30)).2 * num_people)).getD 1),
        rfl, rfl, rfl⟩

/-- Witness for C3 amended: at all-empty sources and one traveller the three
hypotheses of the second conjunct hold (the generic defaults are exact to two
decimals), and total_per_day equals the sum of the stored fields. -/
theorem C3_amended_total_witness :
    (get_comprehensive_cost_analysis none none none none 1 1).total_per_day =
      (get_comprehensive_cost_analysis none none none none 1
          1).accommodation_per_night +
        (get_comprehensive_cost_analysis none none none none 1 1).food_per_day +
        (get_comprehensive_cost_analysis none none none none 1
            1).transport_per_day :=
  C3_amended_total.2.1 none none none none 1 1
    (by norm_num [accommodation_raw]) (by norm_num [food_raw])
    (by norm_num [transport_raw])

/-- Claim C6 counterexample: with every adapter returning data, the winning
sources are the hotel API (120), the restaurant API (50) and the static
transport adapter (7) — the LLM estimate (90, 40, 10) wins no category — yet
`data_sources` still lists "LLM research", and it never lists any tag for the
transport source that did win. -/
theorem C6_counterexample :
    (get_comprehensive_cost_analysis (some ⟨120⟩) (some ⟨90, 40, 10⟩)
        (some ⟨50⟩) (some ⟨7⟩) 1 1).data_sources =
      ["Real hotel prices", "Restaurant price analysis", "LLM research"] ∧
    "LLM research" ∈ (get_comprehensive_cost_analysis (some ⟨120⟩)
        (some ⟨90, 40, 10⟩) (some ⟨50⟩) (some ⟨7⟩) 1 1).data_sources ∧
    (get_comprehensive_cost_analysis (some ⟨120⟩) (some ⟨90, 40, 10⟩)
        (some ⟨50⟩) (some ⟨7⟩) 1 1).accommodation_per_night = 120 ∧
    (get_comprehensive_cost_analysis (some ⟨120⟩) (some ⟨90, 40, 10⟩)
        (some ⟨50⟩) (some ⟨7⟩) 1 1).food_per_day = 50 ∧
    (get_comprehensive_cost_analysis (some ⟨120⟩) (some ⟨90, 40, 10⟩)
        (some ⟨50⟩) (some ⟨7⟩) 1 1).transport_per_day = 7 := by
  refine ⟨rfl, ?_, ?_, ?_, ?_⟩
  · show "LLM research" ∈
      ["Real hotel prices", "Restaurant price analysis", "LLM research"]
    simp
  · show round2 (120 : ℚ) = 120
    unfold round2 roundHalfEven
    norm_num
  · show round2 ((50 : ℚ) * (1 : ℕ)) = 50
    unfold round2 roundHalfEven
    norm_num
  · show round2 ((7 : ℚ) * (1 : ℕ)) = 7
    unfold round2 roundHalfEven
    norm_num

/-- Claim C6 amended: `data_sources` records availability, not precedence
winners: it holds the fixed-order tags of whichever of the hotel, restaurant
and LLM adapters returned data (whether or not they won a category), never a
tag for the static transport source, and is duplicate-free and ordered as a
sublist of the fixed three-tag list; the later DuckDuckGo enhancement appends
exactly one further tag. -/
theorem C6_amended_source_tags :
    (∀ (hotel_prices : Option HotelPrices) (llm_estimates : Option LLMEstimates)
        (food_costs : Option FoodCosts) (transport_costs : Option TransportCosts)
        (num_days num_people : ℕ),
      (get_comprehensive_cost_analysis hotel_prices llm_estimates food_costs
          transport_costs num_days num_people).data_sources =
        (if hotel_prices.isSome then ["Real hotel prices"] else []) ++
        (if food_costs.isSome then ["Restaurant price analysis"] else []) ++
        (if llm_estimates.isSome then ["LLM research"] else []) ∧
      List.Sublist (get_comprehensive_cost_analysis hotel_prices llm_estimates
          food_costs transport_costs num_days num_people).data_sources
        ["Real hotel prices", "Restaurant price analysis", "LLM research"] ∧
      (get_comprehensive_cost_analysis hotel_prices llm_estimates food_costs
          transport_costs num_days num_people).data_sources.Nodup) ∧
    (∀ (has_insights : Bool) (data_sources : List String),
      enhance_data_sources has_insights data_sources =
        data_sources ++
          [if has_insights then "DuckDuckGo real-time search"
           else "Fallback insights"]) := by
  constructor
  · intro hotel_prices llm_estimates food_costs transport_costs num_days num_people
    refine ⟨rfl, ?_, ?_⟩ <;>
      cases hotel_prices <;> cases llm_estimates <;> cases food_costs <;>
        simp [get_comprehensive_cost_analysis]
  · intro has_insights data_sources
    cases has_insights <;> rfl
